import Mathlib

/-!
Verification of the Dream diffusion-chat demo (`src/app.py`).

The script glues a diffusion language model, a tokenizer and a Gradio UI.
We shallowly embed its pure glue logic:

* conversation history is a list of `(user message, assistant reply or pending)`
  pairs (`History`);
* the per-position step-diff colorizer of the visualization loop
  (`colorize_tokens`, faithful to the index-based Python loop including the
  fact that `previous_tokens[idx]` is only accessed when the current token is
  not the mask sentinel, and that an out-of-range index raises — modelled as
  `none`);
* the generator `dream_generate_with_visualization` with its three guarded
  failure points (input tokenization, the model generation call, final output
  decoding).  External effects (tokenizer, model, decoding) are parameters in
  a `GenEnv` record: each is an `Except`/function giving the value the library
  call would return, or the exception message it would raise.  The Python
  generator's lazily yielded triples become an explicit list of `Yield`s, and
  the in-place mutation of the caller's `history` list becomes the second
  component of the result (the caller-visible history after the call).
  An uncaught exception (e.g. indexing an empty snapshot list) is `none`.
-/

/-- Token identifiers; `mask_token_id` may be `-100`, so tokens are integers. -/
abbrev Token := Int

/-- A Gradio-style history entry: `[user_msg, assistant_msg_or_None]`. -/
abbrev History := List (String × Option String)

/-- A role/content message as built by `format_gradio_history_to_messages`. -/
structure Message where
  role : String
  content : String
deriving DecidableEq, Repr

/-- Model of `format_gradio_history_to_messages` from `src/app.py`: one `user` message
per pair, plus an `assistant` message when the reply is not `None`. -/
def format_gradio_history_to_messages (history : History) : List Message :=
  history.flatMap (fun p =>
    { role := "user", content := p.1 } ::
      (match p.2 with
       | none => []
       | some a => [{ role := "assistant", content := a }]))

/-- Model of `add_user_message_to_gradio_history` from `src/app.py`:
`history + [[message, None]]`. -/
def add_user_message_to_gradio_history (history : History) (message : String) :
    History :=
  history ++ [(message, none)]

/-- Python `str.strip` whitespace characters (space, tab, LF, CR, VT, FF). -/
def is_py_space (c : Char) : Bool :=
  c = ' ' || c = '\t' || c = '\n' || c = '\r' || c = '\x0b' || c = '\x0c'

/-- Python `message.strip()`: drop leading and trailing whitespace. -/
def py_strip (s : String) : String :=
  String.mk (((s.toList.dropWhile is_py_space).reverse.dropWhile is_py_space).reverse)

/-- Model of `user_message_submitted` from `src/app.py`.  The guard
`not message or not message.strip()` is `message = "" ∨ py_strip message = ""`;
outputs are `(new chat_history_state, chatbot_display messages, textbox)`. -/
def user_message_submitted (message : String) (history : History) :
    History × List Message × String :=
  if message = "" ∨ py_strip message = "" then
    (history, format_gradio_history_to_messages history, "")
  else
    let new_history := add_user_message_to_gradio_history history message
    (new_history, format_gradio_history_to_messages new_history, "")

/-- Model of `clear_conversation` from `src/app.py`: outputs wired to
`[chat_history_state, chatbot_display, user_input_textbox, vis_output_display]`. -/
def clear_conversation : History × List Message × String × String :=
  ([], [], "", "")

/-- Value of the `mask_token_str` global of `src/app.py`. -/
def mask_token_str : String := "[MASK]"

/-- Model of `history[-1][1] = reply`: replace the assistant slot of the last pair.
On the empty list the Python expression raises; callers guard for that, and
here the empty case returns `[]` (never used un-guarded). -/
def set_last_assistant : History → String → History
  | [], _ => []
  | [p], reply => [(p.1, some reply)]
  | p :: q :: rest, reply => p :: set_last_assistant (q :: rest) reply

/-- The error-surfacing pattern of `src/app.py` (used at all three guarded
points): write the error string into the last pair of a deep copy of the
history, or make a fresh `["System", error]` pair when the history is empty. -/
def error_history (history : History) (reply : String) : History :=
  match history with
  | [] => [("System", some reply)]
  | _ :: _ => set_last_assistant history reply

/-- The assistant reply of the last history pair, if any. -/
def last_assistant_reply (history : History) : Option String :=
  history.getLast?.bind Prod.snd

/-- One iteration of the colorizer loop body of
`dream_generate_with_visualization` (`src/app.py` lines 164-173), scanning
`current` with running index `idx` into `previous_tokens`.  Faithful details:
`previous_tokens[idx]` is looked up only in the non-mask branch, and a lookup
out of range is the Python `IndexError`, modelled as `none` for the whole loop.
`decode` stands for `tokenizer.decode([token_id], skip_special_tokens=True)`. -/
def colorize_step (decode : Token → String) (mask : Token)
    (previous : List Token) : Nat → List Token → Option (List (String × String))
  | _, [] => some []
  | idx, t :: rest =>
    if t = mask then
      (colorize_step decode mask previous (idx + 1) rest).map
        (fun l => (mask_token_str, "#444444") :: l)
    else
      match previous.get? idx with
      | none => none
      | some p =>
        (colorize_step decode mask previous (idx + 1) rest).map
          (fun l =>
            (if p = mask then (decode t, "#66CC66") else (decode t, "#6699CC")) :: l)

/-- The step-diff colorizer: the `for idx, token_id in enumerate(current_tokens)`
loop of `src/app.py`, started at index 0. -/
def colorize_tokens (decode : Token → String) (mask : Token)
    (previous current : List Token) : Option (List (String × String)) :=
  colorize_step decode mask previous 0 current

/-- The per-position rendering rule (mask placeholder / newly revealed green /
stable blue), as a function of the previous and current token at one position. -/
def cellOf (decode : Token → String) (mask p t : Token) : String × String :=
  if t = mask then (mask_token_str, "#444444")
  else if p = mask then (decode t, "#66CC66")
  else (decode t, "#6699CC")

/-- Positionwise form of the colorizer on the zipped sequences; the loop
computes exactly this when every index is in range. -/
def colorize_pairs (decode : Token → String) (mask : Token)
    (previous current : List Token) : List (String × String) :=
  (previous.zip current).map (fun pc => cellOf decode mask pc.1 pc.2)


/-- Python's `needle in hay` substring containment on character lists. -/
def char_list_contains (needle : List Char) : List Char → Bool
  | [] => needle.isEmpty
  | c :: rest => needle.isPrefixOf (c :: rest) || char_list_contains needle rest

/-- The error message built in the `except` branch of the
`model.diffusion_generate` call (`src/app.py` lines 127-138): a long CUDA hint
when the exception text mentions an illegal memory access, a generic message
otherwise. -/
def gen_error_message (e : String) : String :=
  if char_list_contains "illegal memory access".toList e.toLower.toList then
    "Model generation error (CUDA Illegal Memory Access).\n" ++
    "Possible reasons:\n" ++
    "- \x27Diffusion Steps\x27/\x27Max New Tokens\x27 might be too high.\n" ++
    "- Model code and current environment (driver/CUDA/PyTorch) are incompatible.\n" ++
    "- Using float32 might cause issues if switching from bfloat16/float16.\n" ++
    "Try lowering \x27Diffusion Steps\x27 and \x27Max New Tokens\x27, updating your drivers, or checking model issues."
  else
    "Unknown error during model generation: " ++ e

/-- The outcomes of the external library calls made by
`dream_generate_with_visualization`, one generation run at a time:
`tok` is `tokenizer.apply_chat_template` (exception text, or the prompt length
of the encoded input); `gen` is `model.diffusion_generate` together with the
snapshots recorded by `my_generation_tokens_hook` (exception text, or the list
of hooked full sequences plus `output.sequences[0]`); `decode` is the per-token
`tokenizer.decode([token_id], skip_special_tokens=True)`; `decodeFinal` is the
final `tokenizer.decode(final_tokens_list, ...)` (which may raise). -/
structure GenEnv where
  tok : Except String Nat
  gen : Except String (List (List Token) × List Token)
  decode : Token → String
  decodeFinal : List Token → Except String String

/-- The visualization slot of one yielded triple: either a plain string (error
message, or `""` for the skip yield) or a list of `(text, color)` tokens. -/
inductive VisOut where
  | str (s : String)
  | toks (l : List (String × String))
deriving DecidableEq, Repr

/-- One `yield` of the generator: `(chatbot messages, visualization, history)`. -/
structure Yield where
  chatbot : List Message
  vis : VisOut
  history : History
deriving DecidableEq, Repr

/-- The intermediate yield loop of `src/app.py` (lines 160-178): walk the
snapshots after the first, colorize against the running `previous_tokens`,
stamp `⏳ Step i+1/total` into the last pair of the copied history, and yield.
`none` models an uncaught exception (colorizer `IndexError`, or
`intermediate_history[-1]` on an empty history). -/
def intermediate_yields (decode : Token → String) (mask : Token)
    (prompt_length total : Nat) (history : History) :
    Nat → List Token → List (List Token) → Option (List Yield)
  | _, _, [] => some []
  | i, previous, state :: rest =>
    let current := state.drop prompt_length
    match colorize_tokens decode mask previous current with
    | none => none
    | some colored =>
      match history with
      | [] => none
      | _ :: _ =>
        let ih := set_last_assistant history
          ("⏳ Step " ++ toString (i + 1) ++ "/" ++ toString total)
        match intermediate_yields decode mask prompt_length total history
            (i + 1) current rest with
        | none => none
        | some ys =>
          some (⟨format_gradio_history_to_messages ih, .toks colored, history⟩ :: ys)

/-- The final-result block of `src/app.py` (lines 180-204, a `try`/`except`):
decode the generated suffix, color it all-blue (mask positions as placeholder),
strip the decoded text and write it into the caller's history; any exception
(including `history[-1]` on an empty history, Python's
`list index out of range`) is formatted and surfaced on a copy.  Returns the
yields of this block plus the caller-visible history afterwards. -/
def final_phase (env : GenEnv) (mask : Token) (prompt_length : Nat)
    (history : History) (finalSeq : List Token) : List Yield × History :=
  let final_tokens := finalSeq.drop prompt_length
  let colored_final := final_tokens.map (fun t =>
    if t = mask then (mask_token_str, "#444444") else (env.decode t, "#6699CC"))
  match env.decodeFinal final_tokens with
  | .error e =>
    let error_message := "Error processing final output: " ++ e
    let ch := error_history history ("Error processing output: " ++ error_message)
    ([⟨format_gradio_history_to_messages ch, .str error_message, ch⟩], history)
  | .ok raw =>
    match history with
    | [] =>
      let error_message := "Error processing final output: list index out of range"
      let ch := error_history history ("Error processing output: " ++ error_message)
      ([⟨format_gradio_history_to_messages ch, .str error_message, ch⟩], history)
    | _ :: _ =>
      let final_text := py_strip raw
      let h2 := set_last_assistant history final_text
      ([⟨format_gradio_history_to_messages h2, .toks colored_final, h2⟩], h2)

/-- Model of `dream_generate_with_visualization` from `src/app.py`, over a `GenEnv` of
library-call outcomes.  The result is `some (yields, caller history after the
call)`, or `none` when an unguarded exception escapes the generator
(`visualization_token_states[0]` on an empty snapshot list, or an exception
inside the intermediate loop). -/
def dream_generate_with_visualization (env : GenEnv) (mask : Token)
    (history : History) : Option (List Yield × History) :=
  match env.tok with
  | .error e =>
    let error_message := "Input processing error: " ++ e
    let ch := error_history history ("Error: " ++ error_message)
    some ([⟨format_gradio_history_to_messages ch, .str error_message, ch⟩], history)
  | .ok prompt_length =>
    match env.gen with
    | .error e =>
      let error_message := gen_error_message e
      let ch := error_history history ("Error: " ++ error_message)
      some ([⟨format_gradio_history_to_messages ch, .str error_message, ch⟩], history)
    | .ok (snapshots, finalSeq) =>
      match snapshots with
      | [] => none
      | first :: rest =>
        let gen_length := first.length - prompt_length
        let previous := List.replicate gen_length mask
        match intermediate_yields env.decode mask prompt_length rest.length
            history 0 previous rest with
        | none => none
        | some iys =>
          let fp := final_phase env mask prompt_length history finalSeq
          some (iys ++ fp.1, fp.2)

/-- Model of `bot_response_generator` from `src/app.py`: skip (one yield, empty
visualization, history unchanged) when there is no history or the last pair
already has a reply; otherwise defer to the generation function. -/
def bot_response_generator (env : GenEnv) (mask : Token) (history : History) :
    Option (List Yield × History) :=
  match history.getLast? with
  | none =>
    some ([⟨format_gradio_history_to_messages history, .str "", history⟩], history)
  | some p =>
    match p.2 with
    | some _ =>
      some ([⟨format_gradio_history_to_messages history, .str "", history⟩], history)
    | none => dream_generate_with_visualization env mask history

/-- A concrete decode function for test runs. -/
def decodeW : Token → String := fun t => "t" ++ toString t

/-- A concrete successful run: prompt length 1, three hook snapshots. -/
def envW : GenEnv :=
  { tok := .ok 1
  , gen := .ok ([[5, -100, -100], [5, 7, -100], [5, 7, 9]], [5, 7, 9])
  , decode := decodeW
  , decodeFinal := fun _ => .ok " hello " }

/-- A concrete run whose hook fired twice (two snapshots). -/
def envTwoSteps : GenEnv :=
  { tok := .ok 0
  , gen := .ok ([[-100], [7]], [7])
  , decode := decodeW
  , decodeFinal := fun _ => .ok "x" }

/-- A concrete run whose tokenization raises. -/
def envTokErr : GenEnv :=
  { tok := .error "bad input"
  , gen := .ok ([], [])
  , decode := decodeW
  , decodeFinal := fun _ => .ok "" }


/-- Concrete equal-length token sequences for witnesses. -/
def prevW : List Token := [-100, 4, -100]

/-- Concrete current-step tokens paired with `prevW`. -/
def curW : List Token := [1, 4, 7]


/-- The two yields of the `envTwoSteps` run on a one-pair history. -/
def ysTwoSteps : List Yield :=
  [⟨[{ role := "user", content := "hi" },
     { role := "assistant", content := "⏳ Step 1/1" }],
    .toks [("t7", "#66CC66")], [("hi", none)]⟩,
   ⟨[{ role := "user", content := "hi" },
     { role := "assistant", content := "x" }],
    .toks [("t7", "#6699CC")], [("hi", some "x")]⟩]

example :
    colorize_tokens (fun t => toString t) (-100) [-100, 4, -100] [1, 4, -100] =
      some [("1", "#66CC66"), ("4", "#6699CC"), ("[MASK]", "#444444")] := by
  decide

example :
    colorize_tokens (fun t => toString t) (-100) [] [-100, -100] = some
      [("[MASK]", "#444444"), ("[MASK]", "#444444")] := by decide

example : colorize_tokens (fun t => toString t) (-100) [] [3] = none := by decide

theorem colorize_pairs_cons (decode : Token → String) (mask : Token)
    (p t : Token) (ps ts : List Token) :
    colorize_pairs decode mask (p :: ps) (t :: ts) =
      cellOf decode mask p t :: colorize_pairs decode mask ps ts := by
  simp [colorize_pairs]

theorem colorize_step_eq (decode : Token → String) (mask : Token)
    (previous : List Token) :
    ∀ (current : List Token) (idx : Nat), idx + current.length ≤ previous.length →
      colorize_step decode mask previous idx current =
        some (colorize_pairs decode mask (previous.drop idx) current) := by
  intro current
  induction current with
  | nil => intro idx _; simp [colorize_step, colorize_pairs]
  | cons t rest ih =>
    intro idx hle
    have hidx : idx < previous.length := by simp at hle; omega
    have hdrop : previous.drop idx = previous[idx] :: previous.drop (idx + 1) :=
      List.drop_eq_getElem_cons hidx
    have hget : previous.get? idx = some previous[idx] := by
      simp [List.get?_eq_getElem?, hidx]
    have hrest := ih (idx + 1) (by simp at hle ⊢; omega)
    rw [hdrop, colorize_pairs_cons]
    by_cases ht : t = mask
    · rw [colorize_step, if_pos ht, hrest]
      simp [cellOf, ht]
    · rw [colorize_step, if_neg ht, hget, hrest]
      simp [cellOf, ht]

theorem colorize_tokens_eq (decode : Token → String) (mask : Token)
    (previous current : List Token) (h : previous.length = current.length) :
    colorize_tokens decode mask previous current =
      some (colorize_pairs decode mask previous current) := by
  have := colorize_step_eq decode mask previous current 0 (by omega)
  simpa [colorize_tokens] using this

theorem colorize_pairs_length (decode : Token → String) (mask : Token)
    (previous current : List Token) :
    (colorize_pairs decode mask previous current).length =
      min previous.length current.length := by
  simp [colorize_pairs]

theorem colorize_pairs_get? (decode : Token → String) (mask : Token) :
    ∀ (previous current : List Token) (i : Nat) (p t : Token),
      previous.get? i = some p → current.get? i = some t →
      (colorize_pairs decode mask previous current).get? i =
        some (cellOf decode mask p t) := by
  intro previous
  induction previous with
  | nil => intro current i p t hp; simp at hp
  | cons q ps ih =>
    intro current i p t hp ht
    cases current with
    | nil => simp at ht
    | cons u ts =>
      cases i with
      | zero =>
        simp at hp ht
        simp [colorize_pairs, hp, ht]
      | succ j =>
        simp only [List.get?_cons_succ] at hp ht
        simpa [colorize_pairs] using ih ts j p t hp ht
example :
    (dream_generate_with_visualization envW (-100) [("hi", none)]).map
      (fun r => (r.1.length, r.2)) = some (3, [("hi", some "hello")]) := by decide

example :
    (dream_generate_with_visualization envTwoSteps (-100) [("hi", none)]).map
      (fun r => r.1.length) = some 2 := by decide

example :
    dream_generate_with_visualization envTokErr (-100) [("hi", none)] =
      some ([⟨[{ role := "user", content := "hi" },
               { role := "assistant",
                 content := "Error: Input processing error: bad input" }],
             .str "Input processing error: bad input",
             [("hi", some "Error: Input processing error: bad input")]⟩],
            [("hi", none)]) := by decide

theorem set_last_assistant_length (history : History) (reply : String) :
    (set_last_assistant history reply).length = history.length := by
  induction history with
  | nil => rfl
  | cons p rest ih =>
    cases rest with
    | nil => rfl
    | cons q t => simpa [set_last_assistant] using ih

theorem set_last_assistant_map_fst (history : History) (reply : String) :
    (set_last_assistant history reply).map Prod.fst = history.map Prod.fst := by
  induction history with
  | nil => rfl
  | cons p rest ih =>
    cases rest with
    | nil => rfl
    | cons q t => simpa [set_last_assistant] using ih

theorem set_last_assistant_dropLast (history : History) (reply : String) :
    (set_last_assistant history reply).dropLast = history.dropLast := by
  induction history with
  | nil => rfl
  | cons p rest ih =>
    cases rest with
    | nil => rfl
    | cons q t =>
      have hlen : (set_last_assistant (q :: t) reply).length = (q :: t).length :=
        set_last_assistant_length _ _
      cases hsl : set_last_assistant (q :: t) reply with
      | nil => simp [hsl] at hlen
      | cons q2 t2 =>
        rw [hsl] at ih
        simp [set_last_assistant, hsl, List.dropLast, ← ih]

theorem last_assistant_reply_set_last (history : History) (reply : String)
    (hh : history ≠ []) :
    last_assistant_reply (set_last_assistant history reply) = some reply := by
  induction history with
  | nil => exact absurd rfl hh
  | cons p rest ih =>
    cases rest with
    | nil => rfl
    | cons q t =>
      have := ih (by simp)
      have hlen : (set_last_assistant (q :: t) reply).length = (q :: t).length :=
        set_last_assistant_length _ _
      cases hsl : set_last_assistant (q :: t) reply with
      | nil => simp [hsl] at hlen
      | cons q2 t2 =>
        rw [hsl] at this
        simpa [set_last_assistant, hsl, last_assistant_reply,
          List.getLast?_cons_cons] using this

theorem last_assistant_reply_error_history (history : History) (reply : String) :
    last_assistant_reply (error_history history reply) = some reply := by
  cases history with
  | nil => rfl
  | cons p rest =>
    exact last_assistant_reply_set_last (p :: rest) reply (by simp)

theorem error_history_empty (reply : String) :
    error_history [] reply = [("System", some reply)] := rfl

theorem colorize_tokens_isSome (decode : Token → String) (mask : Token)
    (previous current : List Token) (h : previous.length = current.length) :
    (colorize_tokens decode mask previous current).isSome := by
  rw [colorize_tokens_eq decode mask previous current h]
  rfl

theorem intermediate_yields_total (decode : Token → String) (mask : Token)
    (pl total L : Nat) (history : History) (hh : history ≠ []) :
    ∀ (states : List (List Token)) (i : Nat) (previous : List Token),
      previous.length = L - pl → (∀ s ∈ states, s.length = L) →
      ∃ ys, intermediate_yields decode mask pl total history i previous states =
          some ys ∧ ys.length = states.length := by
  intro states
  induction states with
  | nil => intro i previous _ _; exact ⟨[], rfl, rfl⟩
  | cons state rest ih =>
    intro i previous hprev hlen
    have hstate : state.length = L := hlen state (by simp)
    have hcur : previous.length = (state.drop pl).length := by
      simp [hstate, hprev]
    have hsome := colorize_tokens_isSome decode mask previous (state.drop pl) hcur
    obtain ⟨colored, hcolored⟩ := Option.isSome_iff_exists.mp hsome
    obtain ⟨ys, hys, hyslen⟩ := ih (i + 1) (state.drop pl)
      (by simp [hstate]) (fun s hs => hlen s (by simp [hs]))
    cases history with
    | nil => exact absurd rfl hh
    | cons p hrest =>
      have heq : intermediate_yields decode mask pl total (p :: hrest) i previous
          (state :: rest) =
          some (⟨format_gradio_history_to_messages (set_last_assistant (p :: hrest)
            ("⏳ Step " ++ toString (i + 1) ++ "/" ++ toString total)),
            .toks colored, p :: hrest⟩ :: ys) := by
        simp only [intermediate_yields, hcolored, hys]
      exact ⟨_, heq, by simp [hyslen]⟩

theorem final_phase_length (env : GenEnv) (mask : Token) (pl : Nat)
    (history : History) (fs : List Token) :
    (final_phase env mask pl history fs).1.length = 1 := by
  cases hd : env.decodeFinal (fs.drop pl) with
  | error e => simp [final_phase, hd]
  | ok raw => cases history <;> simp [final_phase, hd]

theorem final_phase_error (env : GenEnv) (mask : Token) (pl : Nat)
    (history : History) (fs : List Token) (e : String)
    (hd : env.decodeFinal (fs.drop pl) = .error e) :
    final_phase env mask pl history fs =
      ([⟨format_gradio_history_to_messages (error_history history
            ("Error processing output: " ++ ("Error processing final output: " ++ e))),
         .str ("Error processing final output: " ++ e),
         error_history history
            ("Error processing output: " ++ ("Error processing final output: " ++ e))⟩],
       history) := by
  simp [final_phase, hd]

theorem final_phase_ok (env : GenEnv) (mask : Token) (pl : Nat)
    (history : History) (fs : List Token) (raw : String)
    (hd : env.decodeFinal (fs.drop pl) = .ok raw) (hh : history ≠ []) :
    final_phase env mask pl history fs =
      ([⟨format_gradio_history_to_messages (set_last_assistant history (py_strip raw)),
         .toks ((fs.drop pl).map (fun t =>
           if t = mask then (mask_token_str, "#444444") else (env.decode t, "#6699CC"))),
         set_last_assistant history (py_strip raw)⟩],
       set_last_assistant history (py_strip raw)) := by
  cases history with
  | nil => exact absurd rfl hh
  | cons p rest => simp [final_phase, hd]

theorem dream_generate_success_shape (env : GenEnv) (mask : Token)
    (history : History) (pl : Nat) (first : List Token)
    (rest : List (List Token)) (fs : List Token) (L : Nat)
    (ht : env.tok = .ok pl) (hg : env.gen = .ok (first :: rest, fs))
    (hh : history ≠ []) (hL : ∀ s ∈ first :: rest, s.length = L) :
    ∃ iys, intermediate_yields env.decode mask pl rest.length history 0
        (List.replicate (first.length - pl) mask) rest = some iys ∧
      iys.length = rest.length ∧
      dream_generate_with_visualization env mask history =
        some (iys ++ (final_phase env mask pl history fs).1,
              (final_phase env mask pl history fs).2) := by
  obtain ⟨iys, hiys, hlen⟩ :=
    intermediate_yields_total env.decode mask pl rest.length L history hh
      rest 0 (List.replicate (first.length - pl) mask)
      (by rw [List.length_replicate, hL first (by simp)])
      (fun s hs => hL s (by simp [hs]))
  refine ⟨iys, hiys, hlen, ?_⟩
  simp only [dream_generate_with_visualization, ht, hg, hiys]

theorem dream_generate_run_inv (env : GenEnv) (mask : Token) (history : History)
    (pl : Nat) (snaps : List (List Token)) (fs : List Token)
    (ys : List Yield) (fh : History)
    (ht : env.tok = .ok pl) (hg : env.gen = .ok (snaps, fs))
    (hrun : dream_generate_with_visualization env mask history = some (ys, fh)) :
    ∃ first rest iys, snaps = first :: rest ∧
      intermediate_yields env.decode mask pl rest.length history 0
        (List.replicate (first.length - pl) mask) rest = some iys ∧
      ys = iys ++ (final_phase env mask pl history fs).1 ∧
      fh = (final_phase env mask pl history fs).2 := by
  rcases snaps with _ | ⟨first, rest⟩
  · simp only [dream_generate_with_visualization, ht, hg] at hrun
    cases hrun
  · simp only [dream_generate_with_visualization, ht, hg] at hrun
    cases hiy : intermediate_yields env.decode mask pl rest.length history 0
        (List.replicate (first.length - pl) mask) rest with
    | none => rw [hiy] at hrun; cases hrun
    | some iys =>
      rw [hiy] at hrun
      simp only [Option.some.injEq, Prod.mk.injEq] at hrun
      exact ⟨first, rest, iys, rfl, hiy, hrun.1.symm, hrun.2.symm⟩
/-- Claim C1: for equal-length previous/current token sequences, the colorizer
renders each position as the mask placeholder when the current token is the
mask sentinel; otherwise green ("newly revealed", `#66CC66`) exactly when the
previous token at that position was the mask sentinel, and blue ("stable",
`#6699CC`) otherwise.  In particular a cell is green only when its previous
value was the mask sentinel and its current value is not. -/
theorem claim_c1_step_diff_colorizer (decode : Token → String) (mask : Token)
    (previous current : List Token) (h : previous.length = current.length) :
    ∃ out, colorize_tokens decode mask previous current = some out ∧
      out.length = current.length ∧
      (∀ i p t, previous.get? i = some p → current.get? i = some t →
        out.get? i = some (if t = mask then (mask_token_str, "#444444")
          else if p = mask then (decode t, "#66CC66")
          else (decode t, "#6699CC"))) ∧
      (∀ i p t cell, previous.get? i = some p → current.get? i = some t →
        out.get? i = some cell →
        (cell.2 = "#66CC66" ↔ (p = mask ∧ t ≠ mask))) := by
  refine ⟨colorize_pairs decode mask previous current,
    colorize_tokens_eq decode mask previous current h, ?_, ?_, ?_⟩
  · rw [colorize_pairs_length]; omega
  · intro i p t hp htc
    simpa [cellOf] using colorize_pairs_get? decode mask previous current i p t hp htc
  · intro i p t cell hp htc hcell
    have hc := colorize_pairs_get? decode mask previous current i p t hp htc
    rw [hc, Option.some.injEq] at hcell
    subst hcell
    by_cases htm : t = mask
    · subst htm
      simp [cellOf]
    · by_cases hpm : p = mask
      · simp [cellOf, htm, hpm]
      · simp [cellOf, htm, hpm]

/-- Claim C1 witness at `prevW`/`curW`. -/
theorem claim_c1_witness :
    prevW.length = curW.length ∧
    (∃ out, colorize_tokens decodeW (-100) prevW curW = some out ∧
      out.length = curW.length ∧
      (∀ i p t, prevW.get? i = some p → curW.get? i = some t →
        out.get? i = some (if t = -100 then (mask_token_str, "#444444")
          else if p = -100 then (decodeW t, "#66CC66")
          else (decodeW t, "#6699CC"))) ∧
      (∀ i p t cell, prevW.get? i = some p → curW.get? i = some t →
        out.get? i = some cell →
        (cell.2 = "#66CC66" ↔ (p = -100 ∧ t ≠ -100)))) :=
  ⟨by decide, claim_c1_step_diff_colorizer decodeW (-100) prevW curW (by decide)⟩

/-- Claim C5: under the equal-length precondition, the colorizer's linear scan
never indexes out of bounds — the `none` (out-of-range lookup) outcome of the
loop is unreachable, i.e. the scan always completes. -/
theorem claim_c5_no_out_of_bounds (decode : Token → String) (mask : Token)
    (previous current : List Token) (h : previous.length = current.length) :
    (colorize_tokens decode mask previous current).isSome := by
  rw [colorize_tokens_eq decode mask previous current h]
  rfl

/-- Claim C5 witness at `prevW`/`curW`. -/
theorem claim_c5_witness :
    prevW.length = curW.length ∧
    (colorize_tokens decodeW (-100) prevW curW).isSome :=
  ⟨by decide, claim_c5_no_out_of_bounds decodeW (-100) prevW curW (by decide)⟩

/-- Claim C2 counterexample: `" "` is a non-empty message, yet submitting it
leaves the history unchanged (empty) instead of appending `(" ", None)` —
the guard also rejects whitespace-only messages, not just empty ones. -/
theorem claim_c2_counterexample :
    " " ≠ "" ∧
    (user_message_submitted " " ([] : History)).1 = [] ∧
    (user_message_submitted " " ([] : History)).1 ≠
      add_user_message_to_gradio_history [] " " := by
  refine ⟨by decide, by decide, by decide⟩

/-- Claim C2 (amended): for every history and every message with at least one
non-whitespace character, submission returns the old history with exactly one
`(message, None)` pair appended at the end, and no existing pair changed. -/
theorem claim_c2_submission_appends (message : String) (history : History)
    (hm : ¬ (message = "" ∨ py_strip message = "")) :
    (user_message_submitted message history).1 = history ++ [(message, none)] ∧
    (user_message_submitted message history).1.length = history.length + 1 ∧
    (∀ i, i < history.length →
      (user_message_submitted message history).1.get? i = history.get? i) := by
  have h1 : (user_message_submitted message history).1 =
      history ++ [(message, none)] := by
    simp only [user_message_submitted, add_user_message_to_gradio_history]
    rw [if_neg hm]
  refine ⟨h1, by simp [h1], ?_⟩
  intro i hi
  rw [h1, List.get?_append hi]

/-- Claim C2 witness: submitting `"hello"` onto a one-pair history. -/
theorem claim_c2_witness :
    (¬ ("hello" = "" ∨ py_strip "hello" = "")) ∧
    ((user_message_submitted "hello" [("a", some "b")]).1 =
        [("a", some "b")] ++ [("hello", none)] ∧
      (user_message_submitted "hello" [("a", some "b")]).1.length =
        ([("a", some "b")] : History).length + 1 ∧
      (∀ i, i < ([("a", some "b")] : History).length →
        (user_message_submitted "hello" [("a", some "b")]).1.get? i =
          ([("a", some "b")] : History).get? i)) :=
  ⟨by decide, claim_c2_submission_appends "hello" [("a", some "b")] (by decide)⟩

/-- Claim C10: submitting an empty or whitespace-only message leaves the
history unchanged (and still clears the textbox, third output `""`); a message
with some non-whitespace character is appended. -/
theorem claim_c10_blank_message (message : String) (history : History) :
    ((message = "" ∨ py_strip message = "") →
      user_message_submitted message history =
        (history, format_gradio_history_to_messages history, "")) ∧
    (¬ (message = "" ∨ py_strip message = "") →
      (user_message_submitted message history).1 = history ++ [(message, none)]) := by
  constructor
  · intro hb
    simp only [user_message_submitted]
    rw [if_pos hb]
  · intro hb
    simp only [user_message_submitted, add_user_message_to_gradio_history]
    rw [if_neg hb]

/-- Claim C10 witness: a whitespace-only message is dropped, textbox cleared. -/
theorem claim_c10_witness :
    ("  " = "" ∨ py_strip "  " = "") ∧
    user_message_submitted "  " [("a", some "b")] =
      ([("a", some "b")], format_gradio_history_to_messages [("a", some "b")], "") :=
  ⟨Or.inr (by decide),
    (claim_c10_blank_message "  " [("a", some "b")]).1 (Or.inr (by decide))⟩

/-- Claim C6: `clear_conversation` (wired to the Clear Chat button with outputs
`[chat_history_state, chatbot_display, user_input_textbox, vis_output_display]`)
resets the history, the chat display, the textbox and the visualization panel
to empty; it takes no inputs, so this holds for every prior state. -/
theorem claim_c6_clear_conversation :
    clear_conversation.1 = ([] : History) ∧
    clear_conversation.2.1 = ([] : List Message) ∧
    clear_conversation.2.2.1 = "" ∧
    clear_conversation.2.2.2 = "" ∧
    format_gradio_history_to_messages clear_conversation.1 = [] :=
  ⟨rfl, rfl, rfl, rfl, rfl⟩

/-- Claim C3: at each of the three guarded points — input tokenization, the
model generation call, final output decoding — an exception is caught,
formatted into a string, and surfaced as the assistant reply of the last
history pair of the yielded history (a fresh `["System", error]` pair when the
history is empty, which is what `error_history` produces).  The first two
points produce exactly one yield; the third makes the error yield the last
one.  Errors are plain strings (no structured types) and nothing is retried. -/
theorem claim_c3_error_paths (env : GenEnv) (mask : Token) (history : History) :
    (∀ e, env.tok = .error e →
      dream_generate_with_visualization env mask history =
        some ([⟨format_gradio_history_to_messages
                  (error_history history ("Error: " ++ ("Input processing error: " ++ e))),
                .str ("Input processing error: " ++ e),
                error_history history ("Error: " ++ ("Input processing error: " ++ e))⟩],
              history) ∧
      last_assistant_reply
          (error_history history ("Error: " ++ ("Input processing error: " ++ e))) =
        some ("Error: " ++ ("Input processing error: " ++ e))) ∧
    (∀ pl e, env.tok = .ok pl → env.gen = .error e →
      dream_generate_with_visualization env mask history =
        some ([⟨format_gradio_history_to_messages
                  (error_history history ("Error: " ++ gen_error_message e)),
                .str (gen_error_message e),
                error_history history ("Error: " ++ gen_error_message e)⟩],
              history) ∧
      last_assistant_reply (error_history history ("Error: " ++ gen_error_message e)) =
        some ("Error: " ++ gen_error_message e)) ∧
    (∀ pl snaps fs e ys fh, env.tok = .ok pl → env.gen = .ok (snaps, fs) →
      env.decodeFinal (fs.drop pl) = .error e →
      dream_generate_with_visualization env mask history = some (ys, fh) →
      ys.getLast? = some
        ⟨format_gradio_history_to_messages (error_history history
            ("Error processing output: " ++ ("Error processing final output: " ++ e))),
         .str ("Error processing final output: " ++ e),
         error_history history
            ("Error processing output: " ++ ("Error processing final output: " ++ e))⟩ ∧
      last_assistant_reply (error_history history
          ("Error processing output: " ++ ("Error processing final output: " ++ e))) =
        some ("Error processing output: " ++ ("Error processing final output: " ++ e))) := by
  refine ⟨?_, ?_, ?_⟩
  · intro e ht
    refine ⟨?_, last_assistant_reply_error_history _ _⟩
    simp only [dream_generate_with_visualization, ht]
  · intro pl e ht hg
    refine ⟨?_, last_assistant_reply_error_history _ _⟩
    simp only [dream_generate_with_visualization, ht, hg]
  · intro pl snaps fs e ys fh ht hg hd hrun
    refine ⟨?_, last_assistant_reply_error_history _ _⟩
    obtain ⟨first, rest, iys, hsnaps, hiy, hys, hfh⟩ :=
      dream_generate_run_inv env mask history pl snaps fs ys fh ht hg hrun
    rw [hys, final_phase_error env mask pl history fs e hd]
    exact List.getLast?_concat _

/-- Claim C3 witness: tokenization raises `"bad input"` on a one-pair history. -/
theorem claim_c3_witness :
    dream_generate_with_visualization envTokErr (-100) [("hi", none)] =
      some ([⟨format_gradio_history_to_messages (error_history [("hi", none)]
                ("Error: " ++ ("Input processing error: " ++ "bad input"))),
              .str ("Input processing error: " ++ "bad input"),
              error_history [("hi", none)]
                ("Error: " ++ ("Input processing error: " ++ "bad input"))⟩],
            [("hi", none)]) ∧
    last_assistant_reply (error_history [("hi", none)]
        ("Error: " ++ ("Input processing error: " ++ "bad input"))) =
      some ("Error: " ++ ("Input processing error: " ++ "bad input")) :=
  (claim_c3_error_paths envTokErr (-100) [("hi", none)]).1 "bad input" rfl

/-- Claim C4 counterexample: a run whose per-step callback fired twice (two
snapshots, i.e. two diffusion steps under the claim's reading) produces 2
yields — one intermediate (the first snapshot is skipped) plus one final — not
the 2 + 1 = 3 the claim predicts. -/
theorem claim_c4_counterexample :
    (dream_generate_with_visualization envTwoSteps (-100) [("hi", none)]).map
        (fun r => r.1.length) = some 2 ∧
    (2 : Nat) ≠ 2 + 1 :=
  ⟨by decide, by decide⟩

/-- Claim C4 (amended): on a successful generation whose callback recorded one
snapshot per invocation, the generator yields one UI update per snapshot after
the first, plus a single final one — `snapshots` updates in total, equal to the
number of callback invocations (not that number plus one). -/
theorem claim_c4_yield_count (env : GenEnv) (mask : Token) (history : History)
    (pl : Nat) (snaps : List (List Token)) (fs : List Token) (L : Nat)
    (ht : env.tok = .ok pl) (hg : env.gen = .ok (snaps, fs))
    (hh : history ≠ []) (hne : snaps ≠ []) (hL : ∀ s ∈ snaps, s.length = L) :
    ∃ ys fh, dream_generate_with_visualization env mask history = some (ys, fh) ∧
      ys.length = snaps.length ∧
      ys.length = (snaps.length - 1) + 1 := by
  rcases snaps with _ | ⟨first, rest⟩
  · exact absurd rfl hne
  · obtain ⟨iys, hiys, hlen, hrun⟩ :=
      dream_generate_success_shape env mask history pl first rest fs L ht hg hh hL
    refine ⟨_, _, hrun, ?_, ?_⟩
    · simp [hlen, final_phase_length]
    · simp [hlen, final_phase_length]

/-- Claim C4 witness: a successful three-snapshot run yields three updates. -/
theorem claim_c4_witness :
    ∃ ys fh, dream_generate_with_visualization envW (-100) [("hi", none)] =
        some (ys, fh) ∧
      ys.length = ([[5, -100, -100], [5, 7, -100], [5, 7, 9]] :
        List (List Token)).length ∧
      ys.length = (([[5, -100, -100], [5, 7, -100], [5, 7, 9]] :
        List (List Token)).length - 1) + 1 :=
  claim_c4_yield_count envW (-100) [("hi", none)] 1 _ _ 3 rfl rfl
    (by decide) (by decide) (by decide)
example :
    dream_generate_with_visualization envTwoSteps (-100) [("hi", none)] =
      some (ysTwoSteps, [("hi", some "x")]) := by decide

/-- Claim C7: the history stays a list of `(user, assistant-or-pending)` pairs
whose length matches the number of accepted user turns: submission of a
non-blank message appends exactly one pair, a completed generation only fills
the assistant slot of the last pair (length, user messages and all earlier
pairs unchanged), and clearing resets the history to zero pairs. -/
theorem claim_c7_history_invariant (message : String) (history : History)
    (env : GenEnv) (mask : Token) (pl : Nat) (snaps : List (List Token))
    (fs : List Token) (raw : String) :
    (¬ (message = "" ∨ py_strip message = "") →
      (user_message_submitted message history).1 = history ++ [(message, none)] ∧
      (user_message_submitted message history).1.length = history.length + 1) ∧
    (env.tok = .ok pl → env.gen = .ok (snaps, fs) →
      env.decodeFinal (fs.drop pl) = .ok raw → history ≠ [] →
      ∀ ys fh, dream_generate_with_visualization env mask history = some (ys, fh) →
        fh.length = history.length ∧
        fh.map Prod.fst = history.map Prod.fst ∧
        fh.dropLast = history.dropLast ∧
        last_assistant_reply fh = some (py_strip raw)) ∧
    clear_conversation.1 = ([] : History) := by
  refine ⟨?_, ?_, rfl⟩
  · intro hm
    have h1 : (user_message_submitted message history).1 =
        history ++ [(message, none)] := by
      simp only [user_message_submitted, add_user_message_to_gradio_history]
      rw [if_neg hm]
    exact ⟨h1, by simp [h1]⟩
  · intro ht hg hd hh ys fh hrun
    obtain ⟨first, rest, iys, hsnaps, hiy, hys, hfh⟩ :=
      dream_generate_run_inv env mask history pl snaps fs ys fh ht hg hrun
    rw [final_phase_ok env mask pl history fs raw hd hh] at hfh
    subst hfh
    exact ⟨set_last_assistant_length _ _, set_last_assistant_map_fst _ _,
      set_last_assistant_dropLast _ _, last_assistant_reply_set_last _ _ hh⟩

/-- Claim C7 witness: one submission, one completed two-snapshot generation,
and the clear handler, on a one-pair history. -/
theorem claim_c7_witness :
    ((user_message_submitted "hello" [("hi", none)]).1 =
        [("hi", none)] ++ [("hello", none)] ∧
      (user_message_submitted "hello" [("hi", none)]).1.length =
        ([("hi", none)] : History).length + 1) ∧
    (([("hi", some "x")] : History).length = ([("hi", none)] : History).length ∧
      ([("hi", some "x")] : History).map Prod.fst =
        ([("hi", none)] : History).map Prod.fst ∧
      ([("hi", some "x")] : History).dropLast =
        ([("hi", none)] : History).dropLast ∧
      last_assistant_reply [("hi", some "x")] = some (py_strip "x")) ∧
    clear_conversation.1 = ([] : History) := by
  have h := claim_c7_history_invariant "hello" [("hi", none)] envTwoSteps (-100) 0
    [[-100], [7]] [7] "x"
  exact ⟨h.1 (by decide),
    h.2.1 rfl rfl rfl (by decide) ysTwoSteps [("hi", some "x")] (by decide),
    h.2.2⟩

/-- Claim C8: when tokenization or the generation call raises, the caller's
history comes back unmodified (the error reply lives only in the deep copy
that is yielded), whereas on the fully successful path the final text is
written into the caller's history (its last assistant slot is filled). -/
theorem claim_c8_error_atomicity (env : GenEnv) (mask : Token) (history : History) :
    (∀ e, env.tok = .error e →
      dream_generate_with_visualization env mask history =
        some ([⟨format_gradio_history_to_messages
                  (error_history history ("Error: " ++ ("Input processing error: " ++ e))),
                .str ("Input processing error: " ++ e),
                error_history history ("Error: " ++ ("Input processing error: " ++ e))⟩],
              history)) ∧
    (∀ pl e, env.tok = .ok pl → env.gen = .error e →
      dream_generate_with_visualization env mask history =
        some ([⟨format_gradio_history_to_messages
                  (error_history history ("Error: " ++ gen_error_message e)),
                .str (gen_error_message e),
                error_history history ("Error: " ++ gen_error_message e)⟩],
              history)) ∧
    (∀ pl snaps fs raw, env.tok = .ok pl → env.gen = .ok (snaps, fs) →
      env.decodeFinal (fs.drop pl) = .ok raw → history ≠ [] →
      ∀ ys fh, dream_generate_with_visualization env mask history = some (ys, fh) →
        fh = set_last_assistant history (py_strip raw)) := by
  refine ⟨?_, ?_, ?_⟩
  · intro e ht
    simp only [dream_generate_with_visualization, ht]
  · intro pl e ht hg
    simp only [dream_generate_with_visualization, ht, hg]
  · intro pl snaps fs raw ht hg hd hh ys fh hrun
    obtain ⟨first, rest, iys, hsnaps, hiy, hys, hfh⟩ :=
      dream_generate_run_inv env mask history pl snaps fs ys fh ht hg hrun
    rw [final_phase_ok env mask pl history fs raw hd hh] at hfh
    exact hfh

/-- Claim C8 witness: the successful `envTwoSteps` run fills the caller's last
assistant slot with the stripped decoded text. -/
theorem claim_c8_witness :
    ([("hi", some "x")] : History) =
      set_last_assistant [("hi", none)] (py_strip "x") :=
  (claim_c8_error_atomicity envTwoSteps (-100) [("hi", none)]).2.2 0
    [[-100], [7]] [7] "x" rfl rfl rfl (by decide) ysTwoSteps
    [("hi", some "x")] (by decide)

/-- Claim C9: with empty history, or when the last pair already has a reply,
`bot_response_generator` yields exactly one update — history unchanged, empty
visualization string — and its result does not depend on the generation
environment at all (the generation function is never consulted); when the last
assistant slot is pending (`None`) it defers to the generation function. -/
theorem claim_c9_bot_guard (env : GenEnv) (mask : Token) (history : History) :
    ((history = [] ∨ ∃ p, history.getLast? = some p ∧ p.2 ≠ none) →
      ∀ env2 mask2, bot_response_generator env2 mask2 history =
        some ([⟨format_gradio_history_to_messages history, .str "", history⟩],
          history)) ∧
    (∀ p, history.getLast? = some p → p.2 = none →
      bot_response_generator env mask history =
        dream_generate_with_visualization env mask history) := by
  constructor
  · intro hguard env2 mask2
    rcases hguard with rfl | ⟨p, hp, hne⟩
    · rfl
    · cases hsnd : p.2 with
      | none => exact absurd hsnd hne
      | some a => simp only [bot_response_generator, hp, hsnd]
  · intro p hp hpend
    simp only [bot_response_generator, hp, hpend]

/-- Claim C9 witness: a history whose last pair already has a reply is passed
through untouched, whatever the environment. -/
theorem claim_c9_witness :
    bot_response_generator envW (-100) [("a", some "b")] =
      some ([⟨format_gradio_history_to_messages [("a", some "b")], .str "",
        [("a", some "b")]⟩], [("a", some "b")]) :=
  (claim_c9_bot_guard envW (-100) [("a", some "b")]).1
    (Or.inr ⟨("a", some "b"), by decide, by decide⟩) envW (-100)

example : py_strip "  a b  " = "a b" := by decide
example : user_message_submitted " " [] = ([], [], "") := by decide
example : user_message_submitted "hi" [] = ([("hi", none)],
    [{ role := "user", content := "hi" }], "") := by decide
example : set_last_assistant [("a", none), ("b", none)] "r" =
    [("a", none), ("b", some "r")] := by decide
